import Mathlib

/-!
Verification of ssbh_editor against its specification.

Shallow embedding of the relevant parts of the source:
- src/lib.rs: TextureDimension classification and sort_files
- src/capture.rs: render_animation_sequence, render_screenshot,
  read_texture_to_image, read_buffer_to_image
- src/editors/hlpb.rs: hlpb_editor change-flag propagation and save handling
- src/app/window/log.rs: log_window message stripping

External library types (ssbh_data, ssbh_wgpu, nutexb) are modelled from the
specification where their internals are not part of this repository.
-/

namespace SsbhEditor

/-- From src/lib.rs: the closed texture-shape classification. -/
inductive TextureDimension where
  | Texture1d
  | Texture2d
  | Texture3d
  | TextureCube
deriving DecidableEq, Repr

/-- Modelled from the spec: the external ssbh_data material parameter
identifier enum (ParamId).  The twenty texture-slot identifiers are modelled
individually; all non-texture parameter identifiers (samplers, custom
vectors/floats/booleans, blend and rasterizer state) are abstracted as
NonTexture, which is all the source match on ParamId distinguishes. -/
inductive ParamId where
  | Texture0 | Texture1 | Texture2 | Texture3 | Texture4
  | Texture5 | Texture6 | Texture7 | Texture8 | Texture9
  | Texture10 | Texture11 | Texture12 | Texture13 | Texture14
  | Texture15 | Texture16 | Texture17 | Texture18 | Texture19
  | NonTexture (n : ℕ)
deriving DecidableEq, Repr

/-- Modelled from the spec: the external nutexb texture footer, holding the
decoded metadata fields read by this repository (width, height, depth and
layer count). -/
structure NutexbFooter where
  width : ℕ
  height : ℕ
  depth : ℕ
  layer_count : ℕ
deriving DecidableEq, Repr

/-- Modelled from the spec: the external nutexb file container; the source
only reads its footer. -/
structure NutexbFile where
  footer : NutexbFooter
deriving DecidableEq, Repr

/-- From src/lib.rs, TextureDimension::from_nutexb:
depth > 1 classifies as 3d, otherwise layer_count == 6 as cube,
otherwise 2d. -/
def TextureDimension.from_nutexb (nutexb : NutexbFile) : TextureDimension :=
  if nutexb.footer.depth > 1 then
    TextureDimension.Texture3d
  else if nutexb.footer.layer_count = 6 then
    TextureDimension.TextureCube
  else
    TextureDimension.Texture2d

/-- From src/lib.rs, TextureDimension::from_param: the match arm
Texture2 | Texture7 | Texture8 classifies as cube, everything else as 2d. -/
def TextureDimension.from_param (param : ParamId) : TextureDimension :=
  match param with
  | ParamId.Texture2 | ParamId.Texture7 | ParamId.Texture8 =>
      TextureDimension.TextureCube
  | _ => TextureDimension.Texture2d

/-- C7: from_nutexb returns Texture3d whenever depth > 1 (for any layer
count), TextureCube whenever depth ≤ 1 and layer_count = 6, and Texture2d
whenever depth ≤ 1 and layer_count ≠ 6; in particular depth=2 gives 3d,
depth=1 with layer_count=6 gives cube, depth=1 with layer_count=1 gives 2d. -/
theorem from_nutexb_classification :
    (∀ n : NutexbFile, 1 < n.footer.depth →
      TextureDimension.from_nutexb n = TextureDimension.Texture3d) ∧
    (∀ n : NutexbFile, n.footer.depth ≤ 1 → n.footer.layer_count = 6 →
      TextureDimension.from_nutexb n = TextureDimension.TextureCube) ∧
    (∀ n : NutexbFile, n.footer.depth ≤ 1 → n.footer.layer_count ≠ 6 →
      TextureDimension.from_nutexb n = TextureDimension.Texture2d) := by
  refine ⟨?_, ?_, ?_⟩
  · intro n h1
    simp [TextureDimension.from_nutexb, h1]
  · intro n h1 h2
    simp [TextureDimension.from_nutexb, Nat.not_lt.mpr h1, h2]
  · intro n h1 h2
    simp [TextureDimension.from_nutexb, Nat.not_lt.mpr h1, h2]

/-- C7 witness: the three concrete footers from the claim, classified by
applying the theorem. -/
theorem from_nutexb_classification_witness :
    TextureDimension.from_nutexb ⟨⟨64, 64, 2, 1⟩⟩ = TextureDimension.Texture3d ∧
    TextureDimension.from_nutexb ⟨⟨64, 64, 1, 6⟩⟩ = TextureDimension.TextureCube ∧
    TextureDimension.from_nutexb ⟨⟨64, 64, 1, 1⟩⟩ = TextureDimension.Texture2d :=
  ⟨from_nutexb_classification.1 ⟨⟨64, 64, 2, 1⟩⟩ (by decide),
   from_nutexb_classification.2.1 ⟨⟨64, 64, 1, 6⟩⟩ (by decide) (by decide),
   from_nutexb_classification.2.2 ⟨⟨64, 64, 1, 1⟩⟩ (by decide) (by decide)⟩

/-- C2 counterexample: from_param sends the three pairwise-distinct
identifiers Texture2, Texture7 and Texture8 to TextureCube, so no set of
exactly two identifiers covers the TextureCube preimage as the claim
states. -/
theorem from_param_not_exactly_two_cube_slots :
    TextureDimension.from_param ParamId.Texture8 = TextureDimension.TextureCube ∧
    ParamId.Texture8 ≠ ParamId.Texture2 ∧
    ParamId.Texture8 ≠ ParamId.Texture7 ∧
    ¬ ∃ a b : ParamId, ∀ p : ParamId,
      (TextureDimension.from_param p = TextureDimension.TextureCube ↔
        (p = a ∨ p = b)) := by
  refine ⟨by decide, by decide, by decide, ?_⟩
  rintro ⟨a, b, h⟩
  have h2 := (h ParamId.Texture2).mp (by decide)
  have h7 := (h ParamId.Texture7).mp (by decide)
  have h8 := (h ParamId.Texture8).mp (by decide)
  rcases h2 with rfl | rfl <;> rcases h7 with h7 | h7 <;>
    rcases h8 with h8 | h8 <;>
    first
      | exact absurd h7 (by decide)
      | exact absurd h8 (by decide)
      | exact absurd (h7.trans h8.symm) (by decide)

/-- C2 amended: from_param maps exactly the three identifiers Texture2,
Texture7 and Texture8 to TextureCube and every other identifier to
Texture2d; no input yields Texture1d or Texture3d. -/
theorem from_param_cube_slots :
    ∀ p : ParamId,
      (TextureDimension.from_param p = TextureDimension.TextureCube ↔
        (p = ParamId.Texture2 ∨ p = ParamId.Texture7 ∨ p = ParamId.Texture8)) ∧
      (TextureDimension.from_param p = TextureDimension.TextureCube ∨
        TextureDimension.from_param p = TextureDimension.Texture2d) := by
  intro p
  cases p <;> simp [TextureDimension.from_param]

/-- Byte-lexicographic string comparison used as the sort key, mirroring the
Ord instance of the Rust String type (lexicographic order, modelled on
the character list of the Lean string). -/
def str_le (a b : String) : Bool := decide (a.data ≤ b.data)

/-- Modelled from the spec: the external ssbh_wgpu ModelFolder, one loaded
Mod Folder.  It holds the folder name and one (file name, parse result)
list per file format; the parse-result payloads are abstracted to a single
type parameter since sort_files never reads them. -/
structure ModelFolder (α : Type) where
  folder_name : String
  adjs : List (String × α)
  anims : List (String × α)
  hlpbs : List (String × α)
  matls : List (String × α)
  meshes : List (String × α)
  modls : List (String × α)
  nutexbs : List (String × α)
  skels : List (String × α)
deriving DecidableEq

/-- From src/lib.rs, sort_files: stable sort of the folders by folder name,
then, within each folder, a stable sort of the adjs, anims, matls, meshes,
modls, nutexbs and skels lists by file name.  The hlpbs list is not sorted
by the source. -/
def sort_files {α : Type} (models : List (ModelFolder α)) : List (ModelFolder α) :=
  (models.mergeSort (fun m1 m2 => str_le m1.folder_name m2.folder_name)).map
    (fun model =>
      { model with
        adjs := model.adjs.mergeSort (fun p1 p2 => str_le p1.1 p2.1)
        anims := model.anims.mergeSort (fun p1 p2 => str_le p1.1 p2.1)
        matls := model.matls.mergeSort (fun p1 p2 => str_le p1.1 p2.1)
        meshes := model.meshes.mergeSort (fun p1 p2 => str_le p1.1 p2.1)
        modls := model.modls.mergeSort (fun p1 p2 => str_le p1.1 p2.1)
        nutexbs := model.nutexbs.mergeSort (fun p1 p2 => str_le p1.1 p2.1)
        skels := model.skels.mergeSort (fun p1 p2 => str_le p1.1 p2.1) })

/-- A one-folder input whose helper-bone-constraint file list is in
descending name order; every other file list is empty. -/
def hlpbOnlyFolder : ModelFolder ℕ :=
  { folder_name := "mario"
    adjs := []
    anims := []
    hlpbs := [("model.nuhlpb", 1), ("alt.nuhlpb", 2)]
    matls := []
    meshes := []
    modls := []
    nutexbs := []
    skels := [] }

/-- C3: sort_files leaves the hlpbs (helper-bone-constraint) file list of a
folder untouched, so on a folder whose hlpbs list is in descending name
order the output hlpbs list is still not sorted ascending, contrary to the
claim. -/
theorem sort_files_skips_hlpbs :
    sort_files [hlpbOnlyFolder] = [hlpbOnlyFolder] ∧
    (sort_files [hlpbOnlyFolder]).map (fun m => m.hlpbs.map Prod.fst) =
      [["model.nuhlpb", "alt.nuhlpb"]] ∧
    ¬ List.Sorted (fun a b => a ≤ b) ["model.nuhlpb", "alt.nuhlpb"] := by
  have hsingle :
      sort_files [hlpbOnlyFolder] = [hlpbOnlyFolder] := by
    unfold sort_files
    rw [List.Perm.eq_singleton
      (List.mergeSort_perm [hlpbOnlyFolder]
        (fun m1 m2 => str_le m1.folder_name m2.folder_name))]
    simp [hlpbOnlyFolder]
  refine ⟨hsingle, ?_, ?_⟩
  · rw [hsingle]
    simp [hlpbOnlyFolder]
  · simp only [List.Sorted, List.pairwise_cons]
    intro h
    have h1 : ("model.nuhlpb" : String) ≤ "alt.nuhlpb" :=
      h.1 "alt.nuhlpb" (by simp)
    rw [String.le_iff_toList_le] at h1
    revert h1
    decide

/-- Per-component change reports of the three DragSlider widgets laid out by
edit_vector3 in src/editors/hlpb.rs; each Bool is the changed() report of
one widget for this frame. -/
structure Vector3Edits where
  x : Bool
  y : Bool
  z : Bool
deriving DecidableEq

/-- Per-component change reports of the four DragSlider widgets laid out by
edit_vector4 in src/editors/hlpb.rs. -/
structure Vector4Edits where
  x : Bool
  y : Bool
  z : Bool
  w : Bool
deriving DecidableEq

/-- From src/editors/hlpb.rs, edit_vector3: ORs the changed() reports of the
three component sliders. -/
def edit_vector3 (e : Vector3Edits) : Bool := e.x || e.y || e.z

/-- From src/editors/hlpb.rs, edit_vector4: ORs the changed() reports of the
four component sliders. -/
def edit_vector4 (e : Vector4Edits) : Bool := e.x || e.y || e.z || e.w

/-- Change reports of the widgets of one orient-constraint row: name text
edit, four bone combo boxes, the two selectable values of the unk-type
combo, and the vector/quaternion editors. -/
structure OrientConstraintEdits where
  name : Bool
  parent_bone1 : Bool
  parent_bone2 : Bool
  source_bone : Bool
  target_bone : Bool
  unk_type1 : Bool
  unk_type2 : Bool
  constraint_axes : Vector3Edits
  quat1 : Vector4Edits
  quat2 : Vector4Edits
  range_min : Vector3Edits
  range_max : Vector3Edits
deriving DecidableEq

/-- Change reports of the widgets of one aim-constraint row. -/
structure AimConstraintEdits where
  name : Bool
  aim_bone1 : Bool
  aim_bone2 : Bool
  aim_type1 : Bool
  aim_type2 : Bool
  target_bone1 : Bool
  target_bone2 : Bool
  unk1 : Bool
  unk2 : Bool
  aim : Vector3Edits
  up : Vector3Edits
  quat1 : Vector4Edits
  quat2 : Vector4Edits
deriving DecidableEq

/-- From src/editors/hlpb.rs, orient_constraints: starts from changed =
false and ORs in the per-field reports of every orient-constraint row. -/
def orient_constraints (rows : List OrientConstraintEdits) : Bool :=
  rows.foldl
    (fun changed o =>
      changed || o.name || o.parent_bone1 || o.parent_bone2 || o.source_bone ||
        o.target_bone || o.unk_type1 || o.unk_type2 ||
        edit_vector3 o.constraint_axes || edit_vector4 o.quat1 ||
        edit_vector4 o.quat2 || edit_vector3 o.range_min ||
        edit_vector3 o.range_max)
    false

/-- From src/editors/hlpb.rs, aim_constraints: starts from changed = false
and ORs in the per-field reports of every aim-constraint row. -/
def aim_constraints (rows : List AimConstraintEdits) : Bool :=
  rows.foldl
    (fun changed a =>
      changed || a.name || a.aim_bone1 || a.aim_bone2 || a.aim_type1 ||
        a.aim_type2 || a.target_bone1 || a.target_bone2 || a.unk1 || a.unk2 ||
        edit_vector3 a.aim || edit_vector3 a.up || edit_vector4 a.quat1 ||
        edit_vector4 a.quat2)
    false

/-- From src/editors/hlpb.rs, hlpb_editor: initialises open = true and
changed = true, then ORs the aim-constraint reports into changed when the
aim list is non-empty and the orient-constraint reports when the orient
list is non-empty, and returns (open, changed).  The open flag is cleared
only by the window close control, modelled as the user_closed input. -/
def hlpb_editor (aim_rows : List AimConstraintEdits)
    (orient_rows : List OrientConstraintEdits) (user_closed : Bool) :
    Bool × Bool :=
  let openFlag := !user_closed
  let changed := true
  let changed := if aim_rows ≠ [] then changed || aim_constraints aim_rows
    else changed
  let changed := if orient_rows ≠ [] then
      changed || orient_constraints orient_rows
    else changed
  (openFlag, changed)

/-- A single aim-constraint row in which no widget reports a change. -/
def noAimEdits : AimConstraintEdits :=
  { name := false, aim_bone1 := false, aim_bone2 := false, aim_type1 := false
    aim_type2 := false, target_bone1 := false, target_bone2 := false
    unk1 := false, unk2 := false
    aim := ⟨false, false, false⟩, up := ⟨false, false, false⟩
    quat1 := ⟨false, false, false, false⟩
    quat2 := ⟨false, false, false, false⟩ }

/-- C1: because hlpb_editor initialises its changed flag to true instead of
false, a call in which no field is edited (here: one aim constraint whose
widgets all report no change, and no interaction at all) still returns
changed = true, so the returned flag is not the OR of the per-field change
reports; the per-field OR for this input is false. -/
theorem hlpb_editor_changed_flag_bug :
    (hlpb_editor [noAimEdits] [] false).2 = true ∧
    aim_constraints [noAimEdits] = false ∧
    (hlpb_editor [] [] false).2 = true := by
  refine ⟨?_, ?_, ?_⟩ <;> decide

/-- Severity levels of the process-wide log. -/
inductive LogLevel where
  | error
  | warn
  | info
  | debug
  | trace
deriving DecidableEq

/-- One log entry: a severity level and a message. -/
structure LogEntry where
  level : LogLevel
  message : String
deriving DecidableEq

/-- From src/editors/hlpb.rs: Path::new(folder_name).join(file_name),
modelled as the folder name, a path separator, and the file name. -/
def join_path (folder_name file_name : String) : String :=
  folder_name ++ "/" ++ file_name

/-- The message of the log entry emitted by the failed-save branch of
hlpb_editor: error("Failed to save", path-with-debug-quotes, error),
where the path is printed with surrounding quotes by the Debug formatter. -/
def save_error_message (target : String) (e : String) : String :=
  "Failed to save " ++ "\"" ++ target ++ "\"" ++ ": " ++ e

/-- The File-menu actions of the hlpb editor: Save writes to the original
folder+file path; Save As writes to the dialog-picked path, or does nothing
when the dialog is cancelled. -/
inductive SaveAction where
  | save
  | saveAs (picked : Option String)

/-- From src/editors/hlpb.rs, the File-menu handler of hlpb_editor.  Inputs:
the owning folder and file names, the in-memory constraint data (opaque to
the handler, which passes it to the external writer by shared reference),
the chosen action, the outcome of the external write, and the current
window-open flag.  Output: the log entries emitted, the constraint data
after the action, and the window-open flag after the action.  On a write
error the handler only logs; it neither closes the window nor touches the
data. -/
def hlpb_file_menu {α : Type} (folder_name file_name : String) (hlpb : α)
    (action : SaveAction) (write_result : Except String Unit)
    (openFlag : Bool) : List LogEntry × α × Bool :=
  match action with
  | SaveAction.save =>
      match write_result with
      | Except.ok _ => ([], hlpb, openFlag)
      | Except.error e =>
          ([⟨LogLevel.error,
            save_error_message (join_path folder_name file_name) e⟩],
            hlpb, openFlag)
  | SaveAction.saveAs none => ([], hlpb, openFlag)
  | SaveAction.saveAs (some picked) =>
      match write_result with
      | Except.ok _ => ([], hlpb, openFlag)
      | Except.error e =>
          ([⟨LogLevel.error, save_error_message picked e⟩], hlpb, openFlag)

/-- The target path of a save action, when the action performs a write. -/
def save_target (folder_name file_name : String) : SaveAction → Option String
  | SaveAction.save => some (join_path folder_name file_name)
  | SaveAction.saveAs none => none
  | SaveAction.saveAs (some picked) => some picked

/-- C8: for every Save or Save As action that performs a write and whose
write fails, exactly one log entry is emitted, it has error severity, its
message contains the target path and the underlying error message as
substrings, the window-open flag is unchanged, and the in-memory
constraint data is unchanged. -/
theorem hlpb_save_failure_behavior {α : Type} (folder_name file_name : String)
    (hlpb : α) (action : SaveAction) (e : String) (openFlag : Bool)
    (target : String)
    (htarget : save_target folder_name file_name action = some target) :
    ∃ entry : LogEntry,
      hlpb_file_menu folder_name file_name hlpb action (Except.error e)
          openFlag = ([entry], hlpb, openFlag) ∧
      entry.level = LogLevel.error ∧
      (∃ pre post : String, entry.message = pre ++ (target ++ post)) ∧
      (∃ pre : String, entry.message = pre ++ e) := by
  cases action with
  | save =>
      simp only [save_target, Option.some.injEq] at htarget
      subst htarget
      refine ⟨_, rfl, rfl, ?_, ?_⟩
      · exact ⟨"Failed to save \"", "\": " ++ e, by
          simp [save_error_message, String.append_assoc]⟩
      · exact ⟨"Failed to save \"" ++
          (join_path folder_name file_name) ++ "\": ", by
          simp [save_error_message, String.append_assoc]⟩
  | saveAs picked =>
      cases picked with
      | none => simp [save_target] at htarget
      | some p =>
          simp only [save_target, Option.some.injEq] at htarget
          subst htarget
          refine ⟨_, rfl, rfl, ?_, ?_⟩
          · exact ⟨"Failed to save \"", "\": " ++ e, by
              simp [save_error_message, String.append_assoc]⟩
          · exact ⟨"Failed to save \"" ++ p ++ "\": ", by
              simp [save_error_message, String.append_assoc]⟩

/-- C8 witness: a concrete failed Save leaves the data and window as they
were and logs one error entry mentioning the path and the error. -/
theorem hlpb_save_failure_behavior_witness :
    save_target "mario" "model.nuhlpb" SaveAction.save =
      some "mario/model.nuhlpb" ∧
    ∃ entry : LogEntry,
      hlpb_file_menu "mario" "model.nuhlpb" (42 : ℕ) SaveAction.save
          (Except.error "permission denied") true = ([entry], 42, true) ∧
      entry.level = LogLevel.error ∧
      (∃ pre post : String,
        entry.message = pre ++ ("mario/model.nuhlpb" ++ post)) ∧
      (∃ pre : String, entry.message = pre ++ "permission denied") :=
  ⟨rfl,
    hlpb_save_failure_behavior "mario" "model.nuhlpb" 42 SaveAction.save
      "permission denied" true "mario/model.nuhlpb" rfl⟩

/-- From src/app/window/log.rs: the displayed text of one message.
The external strip_ansi_escapes::strip followed by the lossy UTF-8
conversion is modelled as the strip parameter (ok: the stripped text,
error: the stripping failure); on failure the original message is shown. -/
def clean_message (strip : String → Except String String)
    (message : String) : String :=
  match strip message with
  | Except.ok m => m
  | Except.error _ => message

/-- From src/app/window/log.rs, log_window: iterates the locked log in
order and renders, for each entry, its severity icon and its cleaned
message.  The log itself is only read; the function returns the rendered
rows together with the log, which it leaves unchanged. -/
def log_window (strip : String → Except String String)
    (log : List LogEntry) : List LogEntry × List LogEntry :=
  (log.map (fun entry => ⟨entry.level, clean_message strip entry.message⟩),
    log)

/-- C9: the log viewer displays every entry in order with its severity
preserved; a message for which stripping succeeds is displayed stripped,
and a message for which stripping fails is displayed as the original
unstripped message; the log itself is returned unchanged. -/
theorem log_window_strips_with_fallback
    (strip : String → Except String String) (log : List LogEntry) :
    (log_window strip log).2 = log ∧
    (log_window strip log).1.length = log.length ∧
    (∀ i : ℕ, ∀ entry : LogEntry, log.get? i = some entry →
      ((log_window strip log).1.get? i =
        some ⟨entry.level, clean_message strip entry.message⟩) ∧
      (∀ s : String, strip entry.message = Except.ok s →
        clean_message strip entry.message = s) ∧
      (∀ err : String, strip entry.message = Except.error err →
        clean_message strip entry.message = entry.message)) := by
  refine ⟨rfl, by simp [log_window], ?_⟩
  intro i entry hi
  refine ⟨?_, ?_, ?_⟩
  · have hi' : log[i]? = some entry := by
      rw [← List.get?_eq_getElem?]; exact hi
    simp [log_window, List.get?_eq_getElem?, List.getElem?_map, hi']
  · intro s hs
    simp [clean_message, hs]
  · intro err herr
    simp [clean_message, herr]

/-- A stripping function operating on a two-entry log: it strips the first
message to "clean" and fails on the second. -/
def stripExample (m : String) : Except String String :=
  if m = "esc-then-text" then Except.ok "clean" else Except.error "bad bytes"

/-- C9 witness: the theorem applied to a concrete two-entry log, one entry
stripped successfully and one falling back to the raw message. -/
theorem log_window_strips_with_fallback_witness :
    ((log_window stripExample
        [⟨LogLevel.error, "esc-then-text"⟩, ⟨LogLevel.info, "raw"⟩]).1.get? 0 =
      some ⟨LogLevel.error, clean_message stripExample "esc-then-text"⟩) ∧
    clean_message stripExample "esc-then-text" = "clean" ∧
    clean_message stripExample "raw" = "raw" ∧
    (log_window stripExample
        [⟨LogLevel.error, "esc-then-text"⟩, ⟨LogLevel.info, "raw"⟩]).2 =
      [⟨LogLevel.error, "esc-then-text"⟩, ⟨LogLevel.info, "raw"⟩] := by
  have h := log_window_strips_with_fallback stripExample
    [⟨LogLevel.error, "esc-then-text"⟩, ⟨LogLevel.info, "raw"⟩]
  have h0 := h.2.2 0 ⟨LogLevel.error, "esc-then-text"⟩ rfl
  have h1 := h.2.2 1 ⟨LogLevel.info, "raw"⟩ rfl
  exact ⟨h0.1, h0.2.1 "clean" rfl, h1.2.2 "bad bytes" rfl, h.1⟩

/-- u32 wrap-around, the overflow behaviour of the release-build Rust
arithmetic used in src/capture.rs. -/
def wrap32 (x : ℕ) : ℕ := x % 2 ^ 32

/-- From src/capture.rs, the round_up closure |x, n| ((x + n - 1) / n) * n
on u32 values: the addition and subtraction wrap modulo 2^32 (the
subtraction is modelled by adding 2^32 - 1, which agrees with wrapping
subtraction because x + n ≥ 1 when n = 64). -/
def round_up (x n : ℕ) : ℕ :=
  wrap32 (wrap32 (wrap32 (x + n) + 2 ^ 32 - 1) / n * n)

/-- Modelled from the spec: the Render State as used by src/capture.rs.
The clear color of the renderer (four float channels, exact here because the
source only ever stores 0.0 into it) is modelled explicitly; the device,
queue, settings, shared data and render models, which capture reads but
never writes, are abstracted into the rest field. -/
structure RenderState (ρ : Type) where
  clear_color : ℚ × ℚ × ℚ × ℚ
  rest : ρ

/-- The capture texture allocated by render_screenshot, identified by its
dimensions. -/
structure CaptureTexture where
  texture_width : ℕ
  texture_height : ℕ
deriving DecidableEq

/-- From src/capture.rs, render_screenshot: forces the clear color to
fully transparent ([0.0; 4]) without saving the previous value, computes
the capture texture width by rounding the requested width up with
round_up(width, 64) and uses the requested height unchanged, renders one
frame and reads it back.  The returned state is the render state after the
call; nothing restores the clear color. -/
def render_screenshot {ρ : Type} (render_state : RenderState ρ)
    (width height : ℕ) : RenderState ρ × CaptureTexture :=
  let render_state := { render_state with clear_color := (0, 0, 0, 0) }
  let screenshot_width := round_up width 64
  let screenshot_height := height
  (render_state, ⟨screenshot_width, screenshot_height⟩)

/-- C6 counterexample: at requested width 4294967295 (the largest u32) the
u32 computation x + 64 - 1 wraps, the computed capture width is 0, and 0 is
not a multiple of 64 that is ≥ the requested width, so the universal
statement of the claim fails. -/
theorem render_screenshot_width_wraps_at_max :
    (render_screenshot (⟨(0, 0, 0, 0), ()⟩ : RenderState Unit)
      4294967295 720).2.texture_width = 0 ∧
    ¬ (4294967295 ≤ (render_screenshot (⟨(0, 0, 0, 0), ()⟩ : RenderState Unit)
      4294967295 720).2.texture_width) := by
  constructor <;> decide

/-- C6 amended: for every requested width w with w + 63 < 2^32 (so the u32
addition w + 64 - 1 does not wrap), the capture texture width computed by
render_screenshot is the least multiple of 64 that is ≥ w, and the
requested height is used unchanged. -/
theorem render_screenshot_width_rounding {ρ : Type}
    (render_state : RenderState ρ) (width height : ℕ)
    (hw : width + 63 < 2 ^ 32) :
    (render_screenshot render_state width height).2.texture_width % 64 = 0 ∧
    width ≤ (render_screenshot render_state width height).2.texture_width ∧
    (∀ m : ℕ, m % 64 = 0 → width ≤ m →
      (render_screenshot render_state width height).2.texture_width ≤ m) ∧
    (render_screenshot render_state width height).2.texture_height =
      height := by
  have hb : wrap32 (wrap32 (width + 64) + 2 ^ 32 - 1) = width + 63 := by
    unfold wrap32
    omega
  have hv : (render_screenshot render_state width height).2.texture_width =
      (width + 63) / 64 * 64 := by
    show round_up width 64 = (width + 63) / 64 * 64
    unfold round_up
    rw [hb]
    unfold wrap32
    have hle : (width + 63) / 64 * 64 ≤ width + 63 := Nat.div_mul_le_self _ _
    omega
  rw [hv]
  have hdm := Nat.div_add_mod (width + 63) 64
  have hmod : (width + 63) % 64 < 64 := Nat.mod_lt _ (by omega)
  refine ⟨Nat.mul_mod_left _ _, by omega, ?_, rfl⟩
  intro m hm64 hwm
  have hdm2 := Nat.div_add_mod m 64
  omega

/-- C6 witness: the amended theorem applied at width 100 and height 720,
together with the concrete examples from the claim: 100 → 128, 64 → 64,
65 → 128. -/
theorem render_screenshot_width_rounding_witness :
    (100 + 63 < 2 ^ 32 ∧
      (100 ≤ (render_screenshot (⟨(0, 0, 0, 0), ()⟩ : RenderState Unit)
        100 720).2.texture_width)) ∧
    (render_screenshot (⟨(0, 0, 0, 0), ()⟩ : RenderState Unit)
      100 720).2.texture_width = 128 ∧
    (render_screenshot (⟨(0, 0, 0, 0), ()⟩ : RenderState Unit)
      64 720).2.texture_width = 64 ∧
    (render_screenshot (⟨(0, 0, 0, 0), ()⟩ : RenderState Unit)
      65 720).2.texture_width = 128 ∧
    (render_screenshot (⟨(0, 0, 0, 0), ()⟩ : RenderState Unit)
      100 720).2.texture_height = 720 :=
  ⟨⟨by decide,
    (render_screenshot_width_rounding (⟨(0, 0, 0, 0), ()⟩ : RenderState Unit)
      100 720 (by decide)).2.1⟩,
    by decide, by decide, by decide, by decide⟩

/-- C10: render_screenshot leaves the render state with a fully transparent
clear color and changes nothing else in the state; the previous clear
color is not restored, so when it was not transparent before the call it
is permanently different afterwards. -/
theorem render_screenshot_clear_color {ρ : Type}
    (render_state : RenderState ρ) (width height : ℕ) :
    (render_screenshot render_state width height).1 =
      { render_state with clear_color := (0, 0, 0, 0) } ∧
    (render_state.clear_color ≠ (0, 0, 0, 0) →
      (render_screenshot render_state width height).1.clear_color ≠
        render_state.clear_color) := by
  refine ⟨rfl, ?_⟩
  intro hne
  simpa [render_screenshot] using fun h => hne h.symm

/-- C10 witness: a capture from a state with an opaque white clear color
leaves the clear color transparent, not restored. -/
theorem render_screenshot_clear_color_witness :
    (render_screenshot (⟨(1, 1, 1, 1), ()⟩ : RenderState Unit) 100 720).1 =
      ({ clear_color := (0, 0, 0, 0), rest := () } : RenderState Unit) ∧
    (render_screenshot (⟨(1, 1, 1, 1), ()⟩ : RenderState Unit)
        100 720).1.clear_color ≠
      ((1 : ℚ), (1 : ℚ), (1 : ℚ), (1 : ℚ)) :=
  ⟨(render_screenshot_clear_color (⟨(1, 1, 1, 1), ()⟩ : RenderState Unit)
      100 720).1,
    (render_screenshot_clear_color (⟨(1, 1, 1, 1), ()⟩ : RenderState Unit)
      100 720).2 (by simp)⟩

/-- From src/capture.rs, read_texture_to_image: size of the CPU readback
buffer created for the copy, width * height * 4 bytes. -/
def output_buffer_size (width height : ℕ) : ℕ := width * height * 4

/-- From src/capture.rs, read_texture_to_image: bytes_per_row of the
buffer copy layout, width * 4. -/
def bytes_per_row (width : ℕ) : ℕ := width * 4

/-- From src/capture.rs, read_buffer_to_image: the per-pixel channel swap
p.0.swap(0, 2) applied to the mapped bytes, taken four bytes (one pixel)
at a time. -/
def swap_bgra : List ℕ → List ℕ
  | c0 :: c1 :: c2 :: c3 :: rest => c2 :: c1 :: c0 :: c3 :: swap_bgra rest
  | l => l

/-- From src/capture.rs, read_buffer_to_image: builds an image from the
mapped buffer bytes (ImageBuffer::from_raw, which requires the w*h*4 bytes
the readback buffer holds) and swaps channels 0 and 2 of every pixel. -/
def read_buffer_to_image (data : List ℕ) (width height : ℕ) :
    Option (List ℕ) :=
  if data.length = width * height * 4 then some (swap_bgra data) else none

theorem swap_bgra_length : ∀ l : List ℕ, (swap_bgra l).length = l.length
  | [] => rfl
  | [_] => rfl
  | [_, _] => rfl
  | [_, _, _] => rfl
  | _ :: _ :: _ :: _ :: rest => by
      simp [swap_bgra, swap_bgra_length rest]

theorem swap_bgra_get (k : ℕ) :
    ∀ (data : List ℕ), data.length = 4 * k → ∀ i : ℕ, i < k →
      (swap_bgra data).get? (4 * i) = data.get? (4 * i + 2) ∧
      (swap_bgra data).get? (4 * i + 1) = data.get? (4 * i + 1) ∧
      (swap_bgra data).get? (4 * i + 2) = data.get? (4 * i) ∧
      (swap_bgra data).get? (4 * i + 3) = data.get? (4 * i + 3) := by
  induction k with
  | zero => intro data _ i hi; omega
  | succ k ih =>
    intro data hlen i hi
    match data with
    | c0 :: c1 :: c2 :: c3 :: rest =>
      have hrest : rest.length = 4 * k := by
        simp at hlen
        omega
      cases i with
      | zero => simp [swap_bgra]
      | succ j =>
        have hj : j < k := by omega
        have h0 : 4 * (j + 1) = 4 * j + 3 + 1 := by omega
        have h1 : 4 * (j + 1) + 1 = 4 * j + 3 + 1 + 1 := by omega
        have h2 : 4 * (j + 1) + 2 = 4 * j + 3 + 1 + 2 := by omega
        have h3 : 4 * (j + 1) + 3 = 4 * j + 3 + 1 + 3 := by omega
        have ihj := ih rest hrest j hj
        refine ⟨?_, ?_, ?_, ?_⟩
        · rw [h0]
          show (swap_bgra rest).get? (4 * j) = rest.get? (4 * j + 2)
          exact ihj.1
        · rw [h1]
          show (swap_bgra rest).get? (4 * j + 1) = rest.get? (4 * j + 1)
          exact ihj.2.1
        · rw [h2]
          show (swap_bgra rest).get? (4 * j + 2) = rest.get? (4 * j)
          exact ihj.2.2.1
        · rw [h3]
          show (swap_bgra rest).get? (4 * j + 3) = rest.get? (4 * j + 3)
          exact ihj.2.2.2

/-- C5: on a mapped buffer of exactly width * height * 4 bytes (the size of
the CPU readback buffer, whose row stride is width * 4 bytes),
read_buffer_to_image returns an image of the same byte length in which, for
every pixel, channels 0 and 2 are swapped relative to the raw buffer and
channels 1 and 3 are unchanged. -/
theorem read_buffer_to_image_swaps_channels (data : List ℕ)
    (width height : ℕ) (hlen : data.length = width * height * 4) :
    output_buffer_size width height = width * height * 4 ∧
    bytes_per_row width = width * 4 ∧
    ∃ out : List ℕ,
      read_buffer_to_image data width height = some out ∧
      out.length = data.length ∧
      ∀ i : ℕ, i < width * height →
        out.get? (4 * i) = data.get? (4 * i + 2) ∧
        out.get? (4 * i + 1) = data.get? (4 * i + 1) ∧
        out.get? (4 * i + 2) = data.get? (4 * i) ∧
        out.get? (4 * i + 3) = data.get? (4 * i + 3) := by
  refine ⟨rfl, rfl, swap_bgra data, ?_, swap_bgra_length data, ?_⟩
  · simp [read_buffer_to_image, hlen]
  · intro i hi
    exact swap_bgra_get (width * height) data (by omega) i hi

/-- C5 witness: a concrete 2×1 BGRA buffer is returned with red and blue
swapped in both pixels and the other channels untouched. -/
theorem read_buffer_to_image_swaps_channels_witness :
    ([10, 20, 30, 40, 50, 60, 70, 80] : List ℕ).length = 2 * 1 * 4 ∧
    ∃ out : List ℕ,
      read_buffer_to_image [10, 20, 30, 40, 50, 60, 70, 80] 2 1 = some out ∧
      out.length = 8 ∧
      out.get? 0 = some 30 ∧ out.get? 2 = some 10 ∧
      out.get? 4 = some 70 ∧ out.get? 6 = some 50 ∧
      out.get? 1 = some 20 ∧ out.get? 3 = some 40 := by
  have h := read_buffer_to_image_swaps_channels
    [10, 20, 30, 40, 50, 60, 70, 80] 2 1 (by decide)
  obtain ⟨-, -, out, hout, hlen, hpix⟩ := h
  have h0 := hpix 0 (by decide)
  have h1 := hpix 1 (by decide)
  rw [hout] at *
  refine ⟨by decide, out, hout, by simpa using hlen, ?_, ?_, ?_, ?_, ?_, ?_⟩
  · simpa using h0.1
  · simpa using h0.2.2.1
  · simpa using h1.1
  · simpa using h1.2.2.1
  · simpa using h0.2.1
  · simpa using h0.2.2.2

/-- From src/lib.rs, AnimationSlot: a playback track with an enabled flag
and an optional reference to an animation (folder index, animation
index). -/
structure AnimationSlot where
  is_enabled : Bool
  animation : Option (ℕ × ℕ)
deriving DecidableEq

/-- From src/lib.rs, AnimationState.  The fractional playback frame is
modelled as a rational, exact for the integer frame values the capture
loop steps through (f32 arithmetic is exact on these); the wall-clock
previous_frame_start Instant is abstracted as a tick count. -/
structure AnimationState where
  current_frame : ℚ
  is_playing : Bool
  should_loop : Bool
  playback_speed : ℚ
  should_update_animations : Bool
  selected_folder : ℕ
  selected_slot : ℕ
  animations : List (List AnimationSlot)
  previous_frame_start : ℕ

/-- From src/capture.rs, the capture loop of render_animation_sequence:
starting from the current frame cf, while cf ≤ final_frame it re-evaluates
the animations at cf, takes one screenshot (the captured frame is
identified by its frame value) and advances cf by 1.0. -/
def capture_frames (final_frame : ℚ) (cf : ℚ) : List ℚ :=
  if h : cf ≤ final_frame then cf :: capture_frames final_frame (cf + 1)
  else []
termination_by (⌊final_frame - cf⌋ + 1).toNat
decreasing_by
  have h0 : (0 : ℤ) ≤ ⌊final_frame - cf⌋ := Int.floor_nonneg.mpr (by linarith)
  have h1 : ⌊final_frame - (cf + 1)⌋ = ⌊final_frame - cf⌋ - 1 := by
    have he : final_frame - (cf + 1) = (final_frame - cf) + ((-1 : ℤ) : ℚ) :=
      by push_cast; ring
    rw [he, Int.floor_add_int]
    omega
  omega

/-- From src/capture.rs, render_animation_sequence: saves the current
frame, runs the capture loop from frame 0.0 up to the maximum final frame
index (a value the application computes over its enabled animation slots;
it is a parameter here because the app module is outside the embedded
sources), then unconditionally restores the saved frame, and returns the
captured frames in the order they were rendered. -/
def render_animation_sequence (anim : AnimationState)
    (max_final_frame_index : ℚ) : List ℚ × AnimationState :=
  let saved_frame := anim.current_frame
  let anim1 : AnimationState := { anim with current_frame := 0 }
  let frames := capture_frames max_final_frame_index anim1.current_frame
  let anim2 : AnimationState := { anim1 with current_frame := saved_frame }
  (frames, anim2)

theorem capture_frames_closed_form (n : ℕ) :
    ∀ cf : ℚ, capture_frames (cf + (n : ℚ)) cf =
      (List.range (n + 1)).map (fun k : ℕ => cf + (k : ℚ)) := by
  induction n with
  | zero =>
    intro cf
    rw [capture_frames, dif_pos (by norm_num)]
    rw [capture_frames, dif_neg (by norm_num)]
    simp [List.range_succ]
  | succ n ih =>
    intro cf
    have hn : (0 : ℚ) ≤ (n : ℚ) := Nat.cast_nonneg n
    rw [capture_frames, dif_pos (by push_cast; linarith)]
    have hcast : cf + ((n + 1 : ℕ) : ℚ) = (cf + 1) + ((n : ℕ) : ℚ) := by
      push_cast; ring
    rw [hcast, ih (cf + 1)]
    conv_rhs => rw [List.range_succ_eq_map]
    simp only [List.map_cons, List.map_map]
    congr 1
    · norm_num
    · apply List.map_congr_left
      intro a _
      simp only [Function.comp_apply]
      push_cast
      ring

/-- C4: a full-sequence capture whose maximum final frame index is 10.0
produces exactly 11 frames, the integer frames 0 through 10 in increasing
order, and for every maximum final frame index the Animation State after
the call equals the Animation State before it (the saved current frame is
restored unconditionally). -/
theorem render_animation_sequence_frames :
    (∀ anim : AnimationState,
      (render_animation_sequence anim 10).1 =
        (List.range 11).map (fun n : ℕ => (n : ℚ)) ∧
      (render_animation_sequence anim 10).1.length = 11) ∧
    (∀ (anim : AnimationState) (max_final_frame_index : ℚ),
      (render_animation_sequence anim max_final_frame_index).2 = anim) := by
  constructor
  · intro anim
    have h10 : (10 : ℚ) = 0 + ((10 : ℕ) : ℚ) := by norm_num
    have hframes : (render_animation_sequence anim 10).1 =
        (List.range 11).map (fun n : ℕ => (n : ℚ)) := by
      show capture_frames 10 0 = (List.range 11).map (fun n : ℕ => (n : ℚ))
      rw [h10, capture_frames_closed_form 10 0]
      simp
    exact ⟨hframes, by rw [hframes]; simp⟩
  · intro anim max_final_frame_index
    rfl

end SsbhEditor
